import Mathlib

/-!
Verification of the landmark feature pipeline of `sign_language_extractor`.

We give a shallow embedding of the core pipeline:
  * the per-frame feature vector encoder `extract_landmarks`
    (src/utils.py and src/batch_processing/batch_process_videos.py,
    two textually identical copies of the same function);
  * the per-video sequence recorders `process_video_file` (src/utils.py)
    and `process_video` (src/batch_processing/batch_process_videos.py);
  * the dataset builder `main` of src/batch_processing/create_npy_dataset.py:
    landmark selection by fixed slices, sequence padding/truncation and
    stacking of the surviving files.

Feature values are modelled as rationals (the code only moves values around,
zero-fills and compares lengths; it never does arithmetic on them, so the
embedding is exact).  Fallible code is modelled with explicit result types.
-/

set_option maxHeartbeats 1000000
set_option maxRecDepth 100000

namespace SignLanguageExtractor

/-- A feature value (a coordinate of a landmark point). -/
abbrev Feature := ℚ

/-- A 3D landmark point (x, y, z). -/
abbrev Point : Type := ℚ × ℚ × ℚ

/-! ### Landmark constants (utils.py lines 19-22, create_npy_dataset.py lines 9-24) -/

def NUM_POSE_LANDMARKS : Nat := 33
def NUM_FACE_LANDMARKS : Nat := 468
def NUM_HAND_LANDMARKS : Nat := 21

def POSE_FEATURES : Nat := NUM_POSE_LANDMARKS * 3
def FACE_FEATURES : Nat := NUM_FACE_LANDMARKS * 3
def HAND_FEATURES : Nat := NUM_HAND_LANDMARKS * 3

/-- utils.py line 22: `TOTAL_FEATURES = (33 + 468 + 2*21) * 3 = 1629`. -/
def TOTAL_FEATURES : Nat :=
  (NUM_POSE_LANDMARKS + NUM_FACE_LANDMARKS + 2 * NUM_HAND_LANDMARKS) * 3

/-! Slice offsets of create_npy_dataset.py lines 19-24. -/

def POSE_START : Nat := 0
def POSE_END : Nat := POSE_FEATURES
def FACE_START : Nat := POSE_END
def FACE_END : Nat := POSE_END + FACE_FEATURES
def LH_START : Nat := FACE_END
def LH_END : Nat := FACE_END + HAND_FEATURES
def RH_START : Nat := LH_END
def RH_END : Nat := LH_END + HAND_FEATURES

def TOTAL_FEATURES_EXPECTED : Nat := RH_END

/-! ### Detector output (the MediaPipe `results` record, an opaque input) -/

/-- One detector output: up to four optional landmark lists.  The code does
not constrain the length of a present list; the fixed cardinalities are only
used for the zero-fill fallbacks. -/
structure HolisticResults where
  pose_landmarks : Option (List Point)
  face_landmarks : Option (List Point)
  left_hand_landmarks : Option (List Point)
  right_hand_landmarks : Option (List Point)

/-- `np.array([[res.x, res.y, res.z] for res in ...]).flatten()`. -/
def flattenPoints (l : List Point) : List Feature :=
  l.flatMap (fun p => [p.1, p.2.1, p.2.2])

/-- One group's contribution: the flattened points when present, a zero
vector of the group's fixed length when absent
(utils.py lines 26-36, batch_process_videos.py lines 25-35). -/
def landmarkBlock (o : Option (List Point)) (zeroLen : Nat) : List Feature :=
  match o with
  | some l => flattenPoints l
  | none => List.replicate zeroLen 0

/-- `combined = np.concatenate([pose, face, lh, rh])` (utils.py line 39). -/
def rawCombined (r : HolisticResults) : List Feature :=
  landmarkBlock r.pose_landmarks POSE_FEATURES ++
  landmarkBlock r.face_landmarks FACE_FEATURES ++
  landmarkBlock r.left_hand_landmarks HAND_FEATURES ++
  landmarkBlock r.right_hand_landmarks HAND_FEATURES

/-- utils.py lines 24-54 / batch_process_videos.py lines 23-50: concatenate the
four blocks, then defensively pad with trailing zeros if the total is short or
truncate trailing elements if long (the warning print is a pure side channel). -/
def extract_landmarks (r : HolisticResults) : List Feature :=
  let combined := rawCombined r
  if combined.length ≠ TOTAL_FEATURES then
    if combined.length < TOTAL_FEATURES then
      combined ++ List.replicate (TOTAL_FEATURES - combined.length) 0
    else
      combined.take TOTAL_FEATURES
  else
    combined

/-- A detector output is well formed when every present landmark list has its
group's fixed cardinality (what the detector contract of spec section 3/6
guarantees). -/
def WellFormed (r : HolisticResults) : Prop :=
  (∀ l ∈ r.pose_landmarks, l.length = NUM_POSE_LANDMARKS) ∧
  (∀ l ∈ r.face_landmarks, l.length = NUM_FACE_LANDMARKS) ∧
  (∀ l ∈ r.left_hand_landmarks, l.length = NUM_HAND_LANDMARKS) ∧
  (∀ l ∈ r.right_hand_landmarks, l.length = NUM_HAND_LANDMARKS)

/-! ### Helper lemmas about the encoder -/

theorem length_flattenPoints (l : List Point) :
    (flattenPoints l).length = 3 * l.length := by
  induction l with
  | nil => simp [flattenPoints]
  | cons p t ih =>
    simp [flattenPoints] at ih ⊢
    omega

theorem length_landmarkBlock_none (z : Nat) :
    (landmarkBlock none z).length = z := by
  simp [landmarkBlock]

theorem length_landmarkBlock_wf (o : Option (List Point)) (c : Nat)
    (h : ∀ l ∈ o, l.length = c) :
    (landmarkBlock o (c * 3)).length = c * 3 := by
  match o with
  | none => simp [landmarkBlock]
  | some l =>
    simp [landmarkBlock, length_flattenPoints, h l rfl]
    ring

theorem length_rawCombined_wf (r : HolisticResults) (h : WellFormed r) :
    (rawCombined r).length = TOTAL_FEATURES := by
  obtain ⟨h1, h2, h3, h4⟩ := h
  have e1 := length_landmarkBlock_wf r.pose_landmarks NUM_POSE_LANDMARKS h1
  have e2 := length_landmarkBlock_wf r.face_landmarks NUM_FACE_LANDMARKS h2
  have e3 := length_landmarkBlock_wf r.left_hand_landmarks NUM_HAND_LANDMARKS h3
  have e4 := length_landmarkBlock_wf r.right_hand_landmarks NUM_HAND_LANDMARKS h4
  simp only [rawCombined, List.length_append, POSE_FEATURES, FACE_FEATURES,
    HAND_FEATURES] at *
  rw [e1, e2, e3, e4]
  simp [TOTAL_FEATURES, NUM_POSE_LANDMARKS, NUM_FACE_LANDMARKS, NUM_HAND_LANDMARKS]

theorem length_extract_landmarks (r : HolisticResults) :
    (extract_landmarks r).length = TOTAL_FEATURES := by
  unfold extract_landmarks
  by_cases h : (rawCombined r).length = TOTAL_FEATURES
  · simp [h]
  · simp only [h, if_true, ne_eq, not_false_eq_true, if_neg]
    by_cases h2 : (rawCombined r).length < TOTAL_FEATURES
    · simp [h2]
      omega
    · simp [h2]
      omega

theorem extract_landmarks_wf (r : HolisticResults) (h : WellFormed r) :
    extract_landmarks r = rawCombined r := by
  unfold extract_landmarks
  simp [length_rawCombined_wf r h]

/-! ### Landmark selection (create_npy_dataset.py, `LANDMARK_INFO` and lines 105-108) -/

/-- The four landmark group names, the keys of `LANDMARK_INFO`. -/
inductive LandmarkName
  | Pose
  | Face
  | LeftHand
  | RightHand
deriving DecidableEq, Repr

/-- `LANDMARK_INFO[name]["slice"].start`. -/
def sliceStart : LandmarkName → Nat
  | .Pose => POSE_START
  | .Face => FACE_START
  | .LeftHand => LH_START
  | .RightHand => RH_START

/-- `LANDMARK_INFO[name]["features"]` (also the slice's length). -/
def sliceFeatures : LandmarkName → Nat
  | .Pose => POSE_FEATURES
  | .Face => FACE_FEATURES
  | .LeftHand => HAND_FEATURES
  | .RightHand => HAND_FEATURES

/-- A persisted sequence: one JSON array of frames, each a flat array of
feature values. -/
abbrev SequenceData := List (List Feature)

/-- The column slice `frame[start : start + features]` for one group. -/
def sliceOf (g : LandmarkName) (frame : List Feature) : List Feature :=
  (frame.drop (sliceStart g)).take (sliceFeatures g)

/-- Per-frame feature selection: `np.concatenate([sequence_array[:, s] for s
in selected_slices], axis=1)` restricted to one row.  The slices are taken in
the order the caller listed the landmark names (duplicates included, exactly
as the code builds `selected_slices`). -/
def selectFrame (spec : List LandmarkName) (frame : List Feature) : List Feature :=
  (spec.map (fun g => sliceOf g frame)).flatten

/-- Column selection applied to every frame of a sequence. -/
def selectSeq (spec : List LandmarkName) (seq : SequenceData) : SequenceData :=
  seq.map (selectFrame spec)

/-- `total_selected_features`: the sum of `info["features"]` over the
caller's landmark list (create_npy_dataset.py lines 62-68). -/
def totalSelectedFeatures (spec : List LandmarkName) : Nat :=
  (spec.map sliceFeatures).sum

/-! ### Sequence normalization (create_npy_dataset.py lines 114-128) -/

/-- Pad or truncate a selected sequence to exactly `maxLen` frames: keep it
when the length matches, keep the first `maxLen` frames when longer, append
zero rows of the selected width when shorter. -/
def normalizeSeq (maxLen width : Nat) (seq : SequenceData) : SequenceData :=
  let n := seq.length
  if n = maxLen then
    seq
  else if n > maxLen then
    seq.take maxLen
  else
    seq ++ List.replicate (maxLen - n) (List.replicate width 0)

/-! ### Dataset assembly (create_npy_dataset.py `main`) -/

/-- Whether a loaded JSON file survives validation (lines 93-103): it is
skipped when the frame list is empty, and skipped unless every frame has
exactly 1629 features.  (The code checks `sequence_array.shape[1]`; a ragged
frame list makes the `np.array(..., dtype=np.float32)` conversion raise,
which the surrounding `except` turns into the same skip, so acceptance is
exactly: non-empty and all frames of length 1629.) -/
def fileAccepted (content : SequenceData) : Bool :=
  !content.isEmpty && content.all (fun f => f.length = TOTAL_FEATURES_EXPECTED)

/-- `sorted(list(input_path.glob(...)))` (line 77): files are processed in
ascending filename order. -/
def sortByName (files : List (String × SequenceData)) : List (String × SequenceData) :=
  List.insertionSort (fun a b => a.1 ≤ b.1) files

/-- The per-file loop of `main` (lines 86-130): in sorted filename order,
keep the files that survive validation and apply selection then
normalization to each; failures only skip their own file. -/
def processFiles (spec : List LandmarkName) (maxLen : Nat)
    (files : List (String × SequenceData)) : List SequenceData :=
  ((sortByName files).filter (fun p => fileAccepted p.2)).map
    (fun p => normalizeSeq maxLen (totalSelectedFeatures spec) (selectSeq spec p.2))

/-- The fatal exits of `main`, in the order the code checks them. -/
inductive DatasetError
  | invalidMaxLen
  | noFeaturesSelected
  | noInputFiles
  | noValidSequences
deriving DecidableEq, Repr

/-- `main` of create_npy_dataset.py as a function of its inputs: the eager
configuration checks (lines 54-56, 71-73, 78-80), then the per-file loop,
then the empty-result check (lines 137-139) before the artifact is stacked
and written.  `Except.ok` carries the stacked dataset, so an error means no
artifact is produced. -/
def create_npy_dataset (spec : List LandmarkName) (maxLen : Int)
    (files : List (String × SequenceData)) : Except DatasetError (List SequenceData) :=
  if maxLen ≤ 0 then
    .error .invalidMaxLen
  else if totalSelectedFeatures spec = 0 then
    .error .noFeaturesSelected
  else if files.isEmpty then
    .error .noInputFiles
  else
    let processed := processFiles spec maxLen.toNat files
    if processed.isEmpty then
      .error .noValidSequences
    else
      .ok processed

/-- The artifact written by a run: `np.save` happens only on the success
path, so an error run writes nothing. -/
def datasetArtifact (r : Except DatasetError (List SequenceData)) :
    Option (List SequenceData) :=
  match r with
  | .ok d => some d
  | .error _ => none

/-! ### Sequence recorders -/

/-- Outcome of `process_video_file` (utils.py lines 56-102): the source did
not open (returns None before reading), zero frames were produced (returns
None, nothing written), or a sequence was extracted and saved. -/
inductive RecordResult
  | sourceUnavailable
  | emptySequence
  | saved (seq : SequenceData)
deriving DecidableEq

/-- utils.py `process_video_file`, with the opaque frame source and detector
modelled as the list of per-frame detector outputs and a flag for whether
`cv2.VideoCapture` opened. -/
def process_video_file (sourceOpens : Bool) (frames : List HolisticResults) :
    RecordResult :=
  if !sourceOpens then
    .sourceUnavailable
  else
    let seq := frames.map extract_landmarks
    if seq.isEmpty then
      .emptySequence
    else
      .saved seq

/-- The JSON artifact written by one `process_video_file` run: only a
successful recording reaches the `json.dump` call. -/
def savedArtifact : RecordResult → Option SequenceData
  | .saved s => some s
  | _ => none

/-! ### Batch recorder (batch_process_videos.py `process_video`) -/

/-- One video to process: its filename stem, whether its source opens, and
the detector outputs for its frames. -/
structure VideoJob where
  stem : String
  sourceOpens : Bool
  frames : List HolisticResults

/-- Observable effects of one `process_video` call: whether it constructed a
`cv2.VideoCapture` for the video, and which file (if any) it wrote. -/
structure ProcessTrace where
  openedSource : Bool
  written : Option (String × SequenceData)
deriving DecidableEq

/-- `output_json_path = output_dir / f"{video_name}.json"` (line 59). -/
def outputJsonName (stem : String) : String := stem ++ ".json"

/-- batch_process_videos.py lines 53-107, with the output directory modelled
as an association list from filename to stored sequence.  If the output JSON
already exists the function returns before touching the video (lines 61-64);
otherwise it records and, when frames were produced, writes the new file. -/
def process_video (store : List (String × SequenceData)) (job : VideoJob) :
    ProcessTrace × List (String × SequenceData) :=
  let out := outputJsonName job.stem
  if out ∈ store.map Prod.fst then
    (⟨false, none⟩, store)
  else if !job.sourceOpens then
    (⟨true, none⟩, store)
  else
    let seq := job.frames.map extract_landmarks
    if seq.isEmpty then
      (⟨true, none⟩, store)
    else
      (⟨true, some (out, seq)⟩, store ++ [(out, seq)])

/-! ## Claim C1 -/

/-- C1: for every detector output (any combination of the four landmark
groups present or absent, and any list lengths the detector happens to
supply), `extract_landmarks` returns a vector of length exactly 1629; when
the concatenated length differs it is corrected by padding with trailing
zeros when short or truncating trailing elements when long.  The function is
total, so no exception is ever raised. -/
theorem C1_encoder_fixed_length (r : HolisticResults) :
    (extract_landmarks r).length = TOTAL_FEATURES ∧
    ((rawCombined r).length < TOTAL_FEATURES →
      extract_landmarks r =
        rawCombined r ++ List.replicate (TOTAL_FEATURES - (rawCombined r).length) 0) ∧
    (TOTAL_FEATURES < (rawCombined r).length →
      extract_landmarks r = (rawCombined r).take TOTAL_FEATURES) := by
  refine ⟨length_extract_landmarks r, ?_, ?_⟩
  · intro h
    have hne : (rawCombined r).length ≠ TOTAL_FEATURES := by omega
    unfold extract_landmarks
    simp [hne, h]
  · intro h
    have hne : (rawCombined r).length ≠ TOTAL_FEATURES := by omega
    have hnl : ¬ (rawCombined r).length < TOTAL_FEATURES := by omega
    unfold extract_landmarks
    simp [hne, hnl]

/-- A malformed detector output: pose "present" with zero points, so the
concatenation comes out short and the defensive padding branch runs. -/
def rShortPose : HolisticResults := ⟨some [], none, none, none⟩

/-- Witness for C1 at a concrete input that takes the padding branch. -/
theorem C1_encoder_fixed_length_witness :
    (extract_landmarks rShortPose).length = TOTAL_FEATURES ∧
    ((rawCombined rShortPose).length < TOTAL_FEATURES ∧
      extract_landmarks rShortPose =
        rawCombined rShortPose ++
          List.replicate (TOTAL_FEATURES - (rawCombined rShortPose).length) 0) :=
  ⟨(C1_encoder_fixed_length rShortPose).1,
   by decide, (C1_encoder_fixed_length rShortPose).2.1 (by decide)⟩

/-! ## Claim C2 -/

/-- C2: on well-formed detector outputs, every landmark group occupies its
fixed slice of the encoded vector no matter which other groups are present:
Pose at indices 0..98, Face at 99..1502, LeftHand at 1503..1565, RightHand at
1566..1628 (each slice equals that group's own block).  In particular, when
only Pose is present the first 99 values are its flattened (x,y,z) triples
and the remaining 1530 values are zero. -/
theorem C2_fixed_slice_offsets (r : HolisticResults) (h : WellFormed r) :
    ((extract_landmarks r).drop POSE_START).take POSE_FEATURES =
      landmarkBlock r.pose_landmarks POSE_FEATURES ∧
    ((extract_landmarks r).drop FACE_START).take FACE_FEATURES =
      landmarkBlock r.face_landmarks FACE_FEATURES ∧
    ((extract_landmarks r).drop LH_START).take HAND_FEATURES =
      landmarkBlock r.left_hand_landmarks HAND_FEATURES ∧
    ((extract_landmarks r).drop RH_START).take HAND_FEATURES =
      landmarkBlock r.right_hand_landmarks HAND_FEATURES ∧
    (∀ ps, r.pose_landmarks = some ps → r.face_landmarks = none →
      r.left_hand_landmarks = none → r.right_hand_landmarks = none →
      extract_landmarks r = flattenPoints ps ++ List.replicate 1530 0) := by
  obtain ⟨h1, h2, h3, h4⟩ := h
  have la := length_landmarkBlock_wf r.pose_landmarks NUM_POSE_LANDMARKS h1
  have lb := length_landmarkBlock_wf r.face_landmarks NUM_FACE_LANDMARKS h2
  have lc := length_landmarkBlock_wf r.left_hand_landmarks NUM_HAND_LANDMARKS h3
  have ld := length_landmarkBlock_wf r.right_hand_landmarks NUM_HAND_LANDMARKS h4
  have he : extract_landmarks r = rawCombined r :=
    extract_landmarks_wf r ⟨h1, h2, h3, h4⟩
  rw [he]
  unfold rawCombined
  set a := landmarkBlock r.pose_landmarks POSE_FEATURES with ha
  set b := landmarkBlock r.face_landmarks FACE_FEATURES with hb
  set c := landmarkBlock r.left_hand_landmarks HAND_FEATURES with hc
  set d := landmarkBlock r.right_hand_landmarks HAND_FEATURES with hd
  have la9 : a.length = POSE_FEATURES := la
  have lb9 : b.length = FACE_FEATURES := lb
  have lc9 : c.length = HAND_FEATURES := lc
  have ld9 : d.length = HAND_FEATURES := ld
  refine ⟨?_, ?_, ?_, ?_, ?_⟩
  · rw [show POSE_START = 0 from rfl, List.drop_zero, List.append_assoc,
      List.append_assoc]
    exact List.take_left' la9
  · have hlen : a.length = FACE_START := la9
    have hdrop : (a ++ b ++ c ++ d).drop FACE_START = b ++ (c ++ d) := by
      rw [List.append_assoc, List.append_assoc]
      exact List.drop_left' hlen
    rw [hdrop]
    exact List.take_left' lb9
  · have hlen : (a ++ b).length = LH_START := by
      rw [List.length_append, la9, lb9]
      decide
    have hdrop : (a ++ b ++ c ++ d).drop LH_START = c ++ d := by
      rw [List.append_assoc]
      exact List.drop_left' hlen
    rw [hdrop]
    exact List.take_left' lc9
  · have hlen : (a ++ b ++ c).length = RH_START := by
      rw [List.length_append, List.length_append, la9, lb9, lc9]
      decide
    have hdrop : (a ++ b ++ c ++ d).drop RH_START = d := List.drop_left' hlen
    rw [hdrop]
    exact List.take_of_length_le (le_of_eq ld9)
  · intro ps hp hf hl hr
    rw [ha, hb, hc, hd, hp, hf, hl, hr]
    simp only [landmarkBlock]
    rw [List.append_assoc, List.append_assoc, ← List.replicate_add,
      ← List.replicate_add]
    rfl

/-- The 33 pose points used by the C2 witness. -/
def pts33 : List Point := List.replicate 33 ((1 : ℚ), (2 : ℚ), (3 : ℚ))

/-- A detector output with only Pose present, with 33 points. -/
def rOnlyPose : HolisticResults := ⟨some pts33, none, none, none⟩

/-- Witness for C2: the only-Pose scenario at a concrete 33-point output. -/
theorem C2_fixed_slice_offsets_witness :
    WellFormed rOnlyPose ∧
    extract_landmarks rOnlyPose = flattenPoints pts33 ++ List.replicate 1530 0 := by
  have hwf : WellFormed rOnlyPose := by
    refine ⟨fun l hl => ?_, fun l hl => by simp [rOnlyPose] at hl,
      fun l hl => by simp [rOnlyPose] at hl, fun l hl => by simp [rOnlyPose] at hl⟩
    have hp : rOnlyPose.pose_landmarks = some pts33 := rfl
    rw [hp] at hl
    have hx : l = pts33 := (Option.mem_some_iff.mp hl).symm
    rw [hx]
    decide
  exact ⟨hwf, (C2_fixed_slice_offsets rOnlyPose hwf).2.2.2.2 pts33 rfl rfl rfl rfl⟩

/-! ## Claim C3 -/

theorem selectFrame_all_groups (f : List Feature) (h : f.length = 1629) :
    selectFrame [.Pose, .Face, .LeftHand, .RightHand] f = f := by
  have cPF : POSE_FEATURES = 99 := by decide
  have cFF : FACE_FEATURES = 1404 := by decide
  have cHF : HAND_FEATURES = 63 := by decide
  have cPS : POSE_START = 0 := by decide
  have cFS : FACE_START = 99 := by decide
  have cLS : LH_START = 1503 := by decide
  have cRS : RH_START = 1566 := by decide
  have hsel : selectFrame [.Pose, .Face, .LeftHand, .RightHand] f =
      f.take 99 ++ ((f.drop 99).take 1404 ++
        ((f.drop 1503).take 63 ++ (f.drop 1566).take 63)) := by
    simp [selectFrame, sliceOf, sliceStart, sliceFeatures, cPF, cFF, cHF,
      cPS, cFS, cLS, cRS]
  have e0 : f.take 1629 = f := List.take_of_length_le (by omega)
  have big : f = f.take 99 ++ ((f.drop 99).take 1404 ++
      ((f.drop 1503).take 63 ++ (f.drop 1566).take 63)) := by
    conv_lhs => rw [← e0]
    rw [show (1629 : Nat) = 99 + 1530 from rfl, List.take_add]
    congr 1
    rw [show (1530 : Nat) = 1404 + 126 from rfl, List.take_add, List.drop_drop]
    norm_num
    rw [show (126 : Nat) = 63 + 63 from rfl, List.take_add, List.drop_drop]
  rw [hsel, ← big]

/-- C3: selecting all four groups in the canonical order Pose, Face,
LeftHand, RightHand reproduces every 1629-length frame of the input
sequence unchanged. -/
theorem C3_select_all_roundtrip (seq : SequenceData)
    (h : ∀ f ∈ seq, f.length = TOTAL_FEATURES_EXPECTED) :
    selectSeq [.Pose, .Face, .LeftHand, .RightHand] seq = seq := by
  unfold selectSeq
  have hmap : seq.map (selectFrame [.Pose, .Face, .LeftHand, .RightHand]) =
      seq.map id := by
    refine List.map_congr_left fun f hf => ?_
    have hlen : f.length = 1629 := by
      rw [h f hf]
      decide
    exact selectFrame_all_groups f hlen
  rw [hmap, List.map_id]

/-- The all-zero frame used by concrete witnesses. -/
def zeroFrame : List Feature := List.replicate 1629 0

/-- Witness for C3 on a concrete one-frame sequence. -/
theorem C3_select_all_roundtrip_witness :
    (∀ f ∈ [zeroFrame], f.length = TOTAL_FEATURES_EXPECTED) ∧
    selectSeq [.Pose, .Face, .LeftHand, .RightHand] [zeroFrame] = [zeroFrame] := by
  have hlen : ∀ f ∈ [zeroFrame], f.length = TOTAL_FEATURES_EXPECTED := by
    intro f hf
    rw [List.mem_singleton.mp hf]
    decide
  exact ⟨hlen, C3_select_all_roundtrip [zeroFrame] hlen⟩

/-! ## Claim C4 -/

theorem length_normalizeSeq (maxLen width : Nat) (seq : SequenceData) :
    (normalizeSeq maxLen width seq).length = maxLen := by
  unfold normalizeSeq
  by_cases h1 : seq.length = maxLen
  · simp [h1]
  · by_cases h2 : seq.length > maxLen
    · simp only [h1, if_false, h2, if_true]
      rw [List.length_take]
      omega
    · simp only [h1, if_false, h2, if_false]
      rw [List.length_append, List.length_replicate]
      omega

theorem width_normalizeSeq (maxLen width : Nat) (seq : SequenceData)
    (hw : ∀ f ∈ seq, f.length = width) :
    ∀ f ∈ normalizeSeq maxLen width seq, f.length = width := by
  intro f hf
  simp only [normalizeSeq] at hf
  split at hf
  · exact hw f hf
  · split at hf
    · exact hw f (List.mem_of_mem_take hf)
    · rcases List.mem_append.mp hf with hmem | hmem
      · exact hw f hmem
      · rw [List.eq_of_mem_replicate hmem]
        exact List.length_replicate ..

/-- C4: for every selected-feature sequence of uniform width and every
positive `max_len`, the normalizer returns exactly `max_len` frames of the
same width: the input unchanged when the length already matches, the first
`max_len` frames when longer, and the input followed by zero-vector frames
when shorter. -/
theorem C4_normalizer_spec (maxLen width : Nat) (seq : SequenceData)
    (_hml : 0 < maxLen) (hw : ∀ f ∈ seq, f.length = width) :
    (normalizeSeq maxLen width seq).length = maxLen ∧
    (∀ f ∈ normalizeSeq maxLen width seq, f.length = width) ∧
    (seq.length = maxLen → normalizeSeq maxLen width seq = seq) ∧
    (maxLen < seq.length → normalizeSeq maxLen width seq = seq.take maxLen) ∧
    (seq.length < maxLen → normalizeSeq maxLen width seq =
      seq ++ List.replicate (maxLen - seq.length) (List.replicate width 0)) := by
  refine ⟨length_normalizeSeq maxLen width seq, width_normalizeSeq maxLen width seq hw,
    ?_, ?_, ?_⟩
  · intro h
    unfold normalizeSeq
    simp [h]
  · intro h
    have hne : seq.length ≠ maxLen := by omega
    unfold normalizeSeq
    simp only [hne, if_false, gt_iff_lt, h, if_true]
  · intro h
    have hne : seq.length ≠ maxLen := by omega
    have hng : ¬ seq.length > maxLen := by omega
    unfold normalizeSeq
    simp only [hne, if_false, gt_iff_lt, hng, if_false]

/-- Witness for C4 at a concrete short sequence that gets padded. -/
theorem C4_normalizer_spec_witness :
    (0 < 2 ∧ ∀ f ∈ ([[(5 : ℚ)]] : SequenceData), f.length = 1) ∧
    (normalizeSeq 2 1 [[(5 : ℚ)]]).length = 2 ∧
    normalizeSeq 2 1 [[(5 : ℚ)]] =
      [[(5 : ℚ)]] ++ List.replicate 1 (List.replicate 1 0) := by
  have h := C4_normalizer_spec 2 1 [[(5 : ℚ)]] (by decide) (by decide)
  exact ⟨⟨by decide, by decide⟩, h.1, h.2.2.2.2 (by decide)⟩

/-! ## Claim C5 -/

/-- C5: a sequence file containing any frame whose feature count is not
exactly 1629 never passes validation (it is rejected as a whole), and the
dataset keeps exactly one instance per file that passes validation — the
batch continues over the remaining files instead of aborting. -/
theorem C5_corrupt_file_skipped (spec : List LandmarkName) (maxLen : Nat)
    (files : List (String × SequenceData)) :
    (processFiles spec maxLen files).length =
      files.countP (fun p => fileAccepted p.2) ∧
    ∀ p ∈ files, (∃ fr ∈ p.2, fr.length ≠ TOTAL_FEATURES_EXPECTED) →
      fileAccepted p.2 = false := by
  constructor
  · unfold processFiles
    rw [List.length_map]
    calc ((sortByName files).filter (fun p => fileAccepted p.2)).length
        = (sortByName files).countP (fun p => fileAccepted p.2) :=
          (List.countP_eq_length_filter ..).symm
      _ = files.countP (fun p => fileAccepted p.2) :=
          (List.perm_insertionSort _ files).countP_eq _
  · rintro p _ ⟨fr, hfr, hne⟩
    have hall : p.2.all (fun f => f.length = TOTAL_FEATURES_EXPECTED) = false := by
      rw [List.all_eq_false]
      exact ⟨fr, hfr, by simpa using hne⟩
    simp [fileAccepted, hall]

/-- A concrete batch of 5 sequence files, of which exactly one (file "c")
has a corrupt feature count. -/
def demoFiles : List (String × SequenceData) :=
  [("a.json", [zeroFrame]), ("b.json", [zeroFrame]), ("c.json", [[0, 0, 0]]),
   ("d.json", [zeroFrame]), ("e.json", [zeroFrame])]

/-- Witness for C5: the 5-file batch with 1 corrupt file yields a 4-instance
dataset. -/
theorem C5_corrupt_file_skipped_witness :
    demoFiles.length = 5 ∧
    (∃ fr ∈ ([[0, 0, 0]] : SequenceData), fr.length ≠ TOTAL_FEATURES_EXPECTED) ∧
    (processFiles [LandmarkName.Pose] 1 demoFiles).length = 4 := by
  refine ⟨rfl, ⟨[0, 0, 0], by decide, by decide⟩, ?_⟩
  have h := (C5_corrupt_file_skipped [LandmarkName.Pose] 1 demoFiles).1
  rw [h]
  decide

/-! ## Claim C6 -/

theorem length_sliceOf (g : LandmarkName) (f : List Feature)
    (h : f.length = 1629) :
    (sliceOf g f).length = sliceFeatures g := by
  unfold sliceOf
  rw [List.length_take, List.length_drop, h]
  cases g <;> decide

theorem length_selectFrame (spec : List LandmarkName) (f : List Feature)
    (h : f.length = 1629) :
    (selectFrame spec f).length = totalSelectedFeatures spec := by
  unfold selectFrame totalSelectedFeatures
  rw [List.length_flatten, List.map_map]
  congr 1
  exact List.map_congr_left fun g _ => length_sliceOf g f h

/-- The files that survive validation, in the order `main` processes them
(ascending filename). -/
def acceptedInOrder (files : List (String × SequenceData)) :
    List (String × SequenceData) :=
  (sortByName files).filter (fun p => fileAccepted p.2)

/-- C6: with `max_len = L` and a selection of total width `W`, the stacked
dataset has one instance per surviving file (shape `(K, L, W)`): every
instance has exactly `L` frames and every frame exactly `W` features, and
the instances follow the surviving files in ascending filename order. -/
theorem C6_dataset_shape_order (spec : List LandmarkName) (maxLen : Nat)
    (files : List (String × SequenceData)) (_hml : 0 < maxLen) :
    processFiles spec maxLen files =
      (acceptedInOrder files).map
        (fun p => normalizeSeq maxLen (totalSelectedFeatures spec) (selectSeq spec p.2)) ∧
    ((acceptedInOrder files).map Prod.fst).Sorted (· ≤ ·) ∧
    (∀ s ∈ processFiles spec maxLen files, s.length = maxLen) ∧
    (∀ s ∈ processFiles spec maxLen files,
      ∀ fr ∈ s, fr.length = totalSelectedFeatures spec) := by
  refine ⟨rfl, ?_, ?_, ?_⟩
  · have hs : (sortByName files).Sorted (fun a b => a.1 ≤ b.1) := by
      haveI : IsTotal (String × SequenceData) (fun a b => a.1 ≤ b.1) :=
        ⟨fun a b => le_total a.1 b.1⟩
      haveI : IsTrans (String × SequenceData) (fun a b => a.1 ≤ b.1) :=
        ⟨fun _ _ _ hab hbc => le_trans hab hbc⟩
      exact List.sorted_insertionSort _ files
    have hf : (acceptedInOrder files).Sorted (fun a b => a.1 ≤ b.1) :=
      List.Pairwise.sublist (List.filter_sublist _) hs
    exact List.Pairwise.map Prod.fst (fun _ _ hab => hab) hf
  · intro s hs
    obtain ⟨p, _, rfl⟩ := List.mem_map.mp hs
    exact length_normalizeSeq ..
  · intro s hs fr hfr
    obtain ⟨p, hp, rfl⟩ := List.mem_map.mp hs
    have hacc : fileAccepted p.2 = true := (List.mem_filter.mp hp).2
    have hframes : ∀ f ∈ p.2, f.length = 1629 := by
      intro f hf
      have := (List.all_eq_true.mp ((Bool.and_eq_true ..).mp hacc).2) f hf
      have hfe : f.length = TOTAL_FEATURES_EXPECTED := by simpa using this
      rw [hfe]
      decide
    have hwsel : ∀ f ∈ selectSeq spec p.2, f.length = totalSelectedFeatures spec := by
      intro f hf
      obtain ⟨f0, hf0, rfl⟩ := List.mem_map.mp hf
      exact length_selectFrame spec f0 (hframes f0 hf0)
    exact width_normalizeSeq _ _ _ hwsel _ hfr

/-- Witness for C6 at the concrete 5-file batch with `max_len = 1` and the
Pose-only selection. -/
theorem C6_dataset_shape_order_witness :
    0 < 1 ∧
    (((acceptedInOrder demoFiles).map Prod.fst).Sorted (· ≤ ·) ∧
     (∀ s ∈ processFiles [LandmarkName.Pose] 1 demoFiles, s.length = 1) ∧
     (∀ s ∈ processFiles [LandmarkName.Pose] 1 demoFiles,
       ∀ fr ∈ s, fr.length = totalSelectedFeatures [LandmarkName.Pose])) := by
  have h := C6_dataset_shape_order [LandmarkName.Pose] 1 demoFiles (by decide)
  exact ⟨by decide, h.2.1, h.2.2.1, h.2.2.2⟩

/-! ## Claim C7 -/

/-- C7: when the frame source opens but yields zero frames, the sequence
recorder fails with the empty-sequence outcome: no sequence is returned to
the caller and no artifact file is written. -/
theorem C7_empty_sequence_no_artifact (sourceOpens : Bool)
    (frames : List HolisticResults)
    (h1 : sourceOpens = true) (h2 : frames = []) :
    process_video_file sourceOpens frames = .emptySequence ∧
    savedArtifact (process_video_file sourceOpens frames) = none := by
  subst h1
  subst h2
  exact ⟨rfl, rfl⟩

/-- Witness for C7 at the concrete empty frame source. -/
theorem C7_empty_sequence_no_artifact_witness :
    process_video_file true [] = .emptySequence ∧
    savedArtifact (process_video_file true []) = none :=
  C7_empty_sequence_no_artifact true [] rfl rfl

/-! ## Claim C8 -/

/-- C8: when zero input files survive selection and normalization (with the
configuration checks already passed), the dataset assembler fails with the
no-valid-sequences error and writes no artifact. -/
theorem C8_no_valid_sequences (spec : List LandmarkName) (maxLen : Int)
    (files : List (String × SequenceData))
    (h0 : 0 < maxLen) (h1 : totalSelectedFeatures spec ≠ 0) (h2 : files ≠ [])
    (h3 : processFiles spec maxLen.toNat files = []) :
    create_npy_dataset spec maxLen files = .error .noValidSequences ∧
    datasetArtifact (create_npy_dataset spec maxLen files) = none := by
  have hml : ¬ maxLen ≤ 0 := by omega
  have hfe : ¬ files.isEmpty = true := by
    simp only [List.isEmpty_iff]
    exact h2
  have hmain : create_npy_dataset spec maxLen files = .error .noValidSequences := by
    unfold create_npy_dataset
    rw [if_neg hml, if_neg h1, if_neg hfe]
    simp [h3]
  refine ⟨hmain, ?_⟩
  rw [hmain]
  rfl

/-- Witness for C8: one input file whose frames are all corrupt, so nothing
survives. -/
theorem C8_no_valid_sequences_witness :
    ((0 : Int) < 1 ∧ totalSelectedFeatures [LandmarkName.Pose] ≠ 0 ∧
      ([("a.json", [[0, 0, 0]])] : List (String × SequenceData)) ≠ [] ∧
      processFiles [LandmarkName.Pose] (1 : Int).toNat [("a.json", [[0, 0, 0]])] = []) ∧
    create_npy_dataset [LandmarkName.Pose] 1 [("a.json", [[0, 0, 0]])] =
      .error .noValidSequences ∧
    datasetArtifact
      (create_npy_dataset [LandmarkName.Pose] 1 [("a.json", [[0, 0, 0]])]) = none :=
  ⟨⟨by decide, by decide, by decide, by decide⟩,
   C8_no_valid_sequences [LandmarkName.Pose] 1 [("a.json", [[0, 0, 0]])]
     (by decide) (by decide) (by decide) (by decide)⟩

/-! ## Claim C9 -/

/-- Counterexample to C9 as stated: selecting with the duplicated spec
`[Pose, Pose]` does not produce the same output as selecting with the
duplicate removed — the duplicated slice is emitted twice. -/
theorem C9_duplicate_counterexample :
    ¬ (selectSeq [LandmarkName.Pose, LandmarkName.Pose] [zeroFrame] =
       selectSeq [LandmarkName.Pose] [zeroFrame]) := by
  intro h
  have h' : selectFrame [LandmarkName.Pose, LandmarkName.Pose] zeroFrame =
      selectFrame [LandmarkName.Pose] zeroFrame := by
    simpa only [selectSeq, List.map_cons, List.map_nil, List.cons.injEq,
      and_true] using h
  have hl := congrArg List.length h'
  rw [length_selectFrame _ zeroFrame (by decide),
    length_selectFrame _ zeroFrame (by decide)] at hl
  exact absurd hl (by decide)

/-- C9 (amended): duplicates in a Selection Spec are meaningful — each
occurrence of a group in the spec contributes that group's slice to the
output in the order listed, so selecting with a repeated group differs from
selecting with the duplicate removed. -/
theorem C9_duplicates_meaningful (f : List Feature) (h : f.length = 1629)
    (g : LandmarkName) (spec : List LandmarkName) :
    selectFrame (g :: spec) f = sliceOf g f ++ selectFrame spec f ∧
    selectFrame (g :: g :: spec) f ≠ selectFrame (g :: spec) f := by
  constructor
  · rfl
  · intro he
    have hl := congrArg List.length he
    rw [length_selectFrame _ _ h, length_selectFrame _ _ h] at hl
    have hpos : 0 < sliceFeatures g := by cases g <;> decide
    simp only [totalSelectedFeatures, List.map_cons, List.sum_cons] at hl
    omega

/-- Witness for the amended C9 at a concrete frame and spec. -/
theorem C9_duplicates_meaningful_witness :
    zeroFrame.length = 1629 ∧
    (selectFrame [LandmarkName.Face] zeroFrame =
        sliceOf LandmarkName.Face zeroFrame ++ selectFrame [] zeroFrame ∧
      selectFrame [LandmarkName.Face, LandmarkName.Face] zeroFrame ≠
        selectFrame [LandmarkName.Face] zeroFrame) :=
  ⟨by decide, C9_duplicates_meaningful zeroFrame (by decide) .Face []⟩

/-! ## Claim C10 -/

/-- C10: when the output JSON for a video already exists in the output
directory, `process_video` returns immediately: it never opens the video
source, writes nothing, and leaves the stored files (in particular the
existing recording) unchanged. -/
theorem C10_existing_json_skipped (store : List (String × SequenceData))
    (job : VideoJob) (h : outputJsonName job.stem ∈ store.map Prod.fst) :
    (process_video store job).1.openedSource = false ∧
    (process_video store job).1.written = none ∧
    (process_video store job).2 = store := by
  unfold process_video
  simp only [if_pos h]
  exact ⟨trivial, trivial, trivial⟩

/-- Witness for C10: a store that already holds "v.json". -/
theorem C10_existing_json_skipped_witness :
    outputJsonName "v" ∈ ([("v.json", [zeroFrame])].map Prod.fst :
      List String) ∧
    (process_video [("v.json", [zeroFrame])] ⟨"v", true, []⟩).1.openedSource = false ∧
    (process_video [("v.json", [zeroFrame])] ⟨"v", true, []⟩).1.written = none ∧
    (process_video [("v.json", [zeroFrame])] ⟨"v", true, []⟩).2 =
      [("v.json", [zeroFrame])] := by
  have hmem : outputJsonName "v" ∈ ([("v.json", [zeroFrame])].map Prod.fst :
      List String) := by decide
  have h := C10_existing_json_skipped [("v.json", [zeroFrame])] ⟨"v", true, []⟩ hmem
  exact ⟨hmem, h.1, h.2.1, h.2.2⟩

end SignLanguageExtractor
